import Mathlib

/-!
Shallow embedding of the invoice-extraction core of `src/manual.py`
(`class InvoiceExtractor`).  Python strings are embedded as `String`
(manipulated through their `List Char` data), Python `None`/values as
`Option`, Python dicts as insertion-ordered association lists, and the
Python `re` module as a small backtracking regular-expression engine
(`RE`, `reM`) that mirrors `re.search` / `re.findall` / `re.match`
with ordered alternation and greedy/lazy quantifiers.  Python floats
produced by `float()` on cleaned amount strings are embedded as exact
decimal numbers (`PyFloat`), which agree with IEEE doubles on the short
decimal literals this program handles.
-/

/-- Python whitespace for `str.strip` and the regex class `\s`
(ASCII fragment: space, tab, newline, carriage return, vertical tab,
form feed). -/
def pySpace (c : Char) : Bool :=
  c = ' ' || c = '\t' || c = '\n' || c = '\r' || c = '\x0b' || c = '\x0c'

/-- `str.strip()` on the character list: drop whitespace at both ends. -/
def pyStripL (cs : List Char) : List Char :=
  ((cs.dropWhile pySpace).reverse.dropWhile pySpace).reverse

/-- `str.strip()` on strings. -/
def pyStrip (s : String) : String := ⟨pyStripL s.data⟩

/-- `str.lower()` (ASCII model of Python's `str.lower`). -/
def pyLower (s : String) : String := ⟨s.data.map Char.toLower⟩

/-- Does the second list start with the first? -/
def startsWithL : List Char → List Char → Bool
  | [], _ => true
  | _ :: _, [] => false
  | n :: ns, h :: hs => n = h && startsWithL ns hs

/-- Does `needle` occur contiguously in `hay`? -/
def containsL (hay needle : List Char) : Bool :=
  match hay with
  | [] => startsWithL needle []
  | _ :: t => startsWithL needle hay || containsL t needle

/-- Python's substring test `needle in haystack` (contiguous substring). -/
def pyContains (haystack needle : String) : Bool :=
  containsL haystack.data needle.data

/-- `text.split('\n')`: split at every newline, keeping empty pieces. -/
def pySplitLinesL : List Char → List (List Char)
  | [] => [[]]
  | c :: rest =>
    if c = '\n' then [] :: pySplitLinesL rest
    else
      match pySplitLinesL rest with
      | [] => [[c]]
      | l :: ls => (c :: l) :: ls

/-- `text.split('\n')` on strings. -/
def pySplitLines (s : String) : List String :=
  (pySplitLinesL s.data).map (fun l => (⟨l⟩ : String))

/-- `str.split()` with no argument: whitespace-separated words, no empties. -/
def pyWords (s : String) : List String :=
  ((s.data.splitOnP pySpace).filter (· ≠ [])).map (fun l => (⟨l⟩ : String))

/-- `str.capitalize()`: first character uppercased, the rest lowercased. -/
def pyCapitalize (s : String) : String :=
  match s.data with
  | [] => ""
  | c :: rest => ⟨c.toUpper :: rest.map Char.toLower⟩

/-- `str.title()`: uppercase every letter that follows a non-letter,
lowercase the other letters (ASCII model). -/
def pyTitleAux : Bool → List Char → List Char
  | _, [] => []
  | prevAlpha, c :: rest =>
    (if c.isAlpha then (if prevAlpha then c.toLower else c.toUpper) else c)
      :: pyTitleAux (c.isAlpha) rest

/-- `str.title()` on strings. -/
def pyTitle (s : String) : String := ⟨pyTitleAux false s.data⟩

/-- Python truthiness of an optional string (`None` and `""` are falsy). -/
def pyTruthy : Option String → Bool
  | none => false
  | some s => s ≠ ""

/-- The value of a Python float produced by `float()` on a string of digits
and at most one dot, embedded exactly as `mant / 10 ^ exp`.  Values are kept
canonical (no trailing fractional zeros), so that structural equality agrees
with numeric equality; this matches `str(float(...))`'s shortest-repr output
on the short decimal amounts the program handles. -/
structure PyFloat where
  mant : Nat
  exp : Nat
deriving DecidableEq, Repr

/-- Canonicalize `mant / 10 ^ exp` by stripping trailing fractional zeros. -/
def pfNorm (m : Nat) : Nat → PyFloat
  | 0 => ⟨m, 0⟩
  | e + 1 => if m % 10 = 0 then pfNorm (m / 10) e else ⟨m, e + 1⟩

/-- The rational value denoted by a `PyFloat`. -/
def pfVal (a : PyFloat) : ℚ := (a.mant : ℚ) / 10 ^ a.exp

/-- Python `<` on these floats (exact comparison of the decimal values). -/
def pfLt (a b : PyFloat) : Bool := a.mant * 10 ^ b.exp < b.mant * 10 ^ a.exp

/-- Numeric value of a digit list (most significant first). -/
def natOfDigits (cs : List Char) : Nat :=
  cs.foldl (fun a c => a * 10 + (c.toNat - 48)) 0

/-- Split a character list at every `'.'`. -/
def splitDots : List Char → List (List Char)
  | [] => [[]]
  | c :: rest =>
    if c = '.' then [] :: splitDots rest
    else
      match splitDots rest with
      | [] => [[c]]
      | l :: ls => (c :: l) :: ls

/-- Python `float()` restricted to its use in `manual.py`: the argument is a
string already cleaned to digits and dots (`re.sub(r'[^\d\.]', '', ...)`).
`float` succeeds on `"123"`, `"123.45"`, `".5"`, `"5."` and fails on `""`,
`"."` and strings with more than one dot. -/
def pyFloatOfClean (cs : List Char) : Option PyFloat :=
  if cs.all (fun c => c.isDigit || c = '.') then
    match splitDots cs with
    | [ds] => if ds = [] then none else some (pfNorm (natOfDigits ds) 0)
    | [ds, fs] =>
      if ds = [] ∧ fs = [] then none
      else some (pfNorm (natOfDigits (ds ++ fs)) fs.length)
    | _ => none
  else none

/-- `re.sub(r'[^\d\.]', '', s)`: keep only digits and dots (ASCII model of
`\d`). -/
def cleanAmount (cs : List Char) : List Char :=
  cs.filter (fun c => c.isDigit || c = '.')

/-- The result of `InvoiceExtractor.parse_amount`: `None`, a float, or the
raw string passed through. -/
def parse_amount (amount_string : Option String) : Option (PyFloat ⊕ String) :=
  match amount_string with
  | none => none
  | some s =>
    if s = "" then none
    else
      match pyFloatOfClean (cleanAmount s.data) with
      | some f => some (Sum.inl f)
      | none => some (Sum.inr s)

/-- Decimal digits of a natural number. -/
def natDigitsStr (n : Nat) : String := Nat.repr n

/-- Left-pad a numeral with zeros to the given width. -/
def padZeros (width : Nat) (n : Nat) : String :=
  let s := natDigitsStr n
  ⟨List.replicate (width - s.length) '0' ++ s.data⟩

/-- `str(...)` of a Python float (shortest-repr model, exact on the
canonical short decimals this program produces): always at least one
fractional digit, e.g. `44.0`, `1234.56`. -/
def pyFloatStr (a : PyFloat) : String :=
  if a.exp = 0 then natDigitsStr a.mant ++ ".0"
  else natDigitsStr (a.mant / 10 ^ a.exp) ++ "." ++ padZeros a.exp (a.mant % 10 ^ a.exp)

/-- Month lengths of the Gregorian calendar. -/
def daysInMonth (year month : Nat) : Nat :=
  if month = 2 then
    if year % 4 = 0 ∧ (year % 100 ≠ 0 ∨ year % 400 = 0) then 29 else 28
  else if month = 4 ∨ month = 6 ∨ month = 9 ∨ month = 11 then 30
  else 31

/-- English month names and their numbers (full names, three-letter
abbreviations, and `sept`). -/
def monthTable : List (String × Nat) :=
  [("january", 1), ("february", 2), ("march", 3), ("april", 4), ("may", 5),
   ("june", 6), ("july", 7), ("august", 8), ("september", 9), ("october", 10),
   ("november", 11), ("december", 12),
   ("jan", 1), ("feb", 2), ("mar", 3), ("apr", 4), ("jun", 6), ("jul", 7),
   ("aug", 8), ("sep", 9), ("sept", 9), ("oct", 10), ("nov", 11), ("dec", 12)]

/-- Look a lowercased word up in the month table. -/
def monthOfWord (w : String) : Option Nat :=
  monthTable.lookup w

/-- Is the word made of digits only (and nonempty)? -/
def allDigits (w : String) : Bool := w.data ≠ [] && w.data.all Char.isDigit

/-- Split a token at `/`, `-` or `.` separators. -/
def splitDateSeps (cs : List Char) : List (List Char) :=
  cs.splitOnP (fun c => c = '/' || c = '-' || c = '.')

/-- Interpret a two- or four-digit year the way `dateutil` does (two-digit
years below 69 fall in the 2000s). -/
def expandYear (n : Nat) : Nat :=
  if n ≥ 100 then n else if n < 69 then 2000 + n else 1900 + n

/-- A calendar validity check used by the modelled parser. -/
def validDate (y m d : Nat) : Bool :=
  1 ≤ m && m ≤ 12 && 1 ≤ d && d ≤ daysInMonth y m

/-- Modelled from the spec: "attempt flexible natural-language date
parsing".  The source calls the external `dateutil.parser.parse`, which is
not part of this repository; this model covers the date shapes the
extractor's patterns can capture: `<month-name> <day>, <year>`,
`<day> <month-name> <year>`, ISO `YYYY-MM-DD`, and numeric
`M/D/Y` (month first, as `dateutil`'s default), failing on anything else
or on calendar-invalid dates. -/
def dateutilParse (s : String) : Option (Nat × Nat × Nat) :=
  let cleaned := (pyLower s).data.map (fun c => if c = ',' then ' ' else c)
  let ws := pyWords ⟨cleaned⟩
  match ws with
  | [w1, w2, w3] =>
    match monthOfWord w1, allDigits w2, allDigits w3 with
    | some m, true, true =>
      let d := natOfDigits w2.data
      let y := expandYear (natOfDigits w3.data)
      if validDate y m d then some (y, m, d) else none
    | _, _, _ =>
      match allDigits w1, monthOfWord w2, allDigits w3 with
      | true, some m, true =>
        let d := natOfDigits w1.data
        let y := expandYear (natOfDigits w3.data)
        if validDate y m d then some (y, m, d) else none
      | _, _, _ => none
  | [w] =>
    match (splitDateSeps w.data).map (fun p => (⟨p⟩ : String)) with
    | [a, b, c] =>
      if allDigits a && allDigits b && allDigits c then
        let na := natOfDigits a.data
        let nb := natOfDigits b.data
        let nc := natOfDigits c.data
        if a.length = 4 then
          -- ISO order YYYY-MM-DD
          if validDate na nb nc then some (na, nb, nc) else none
        else
          -- dateutil default: month first
          let y := expandYear nc
          if validDate y na nb then some (y, na, nb) else none
      else none
    | _ => none
  | _ => none

/-- `parsed_date.strftime('%Y-%m-%d')`. -/
def isoDateStr (y m d : Nat) : String :=
  padZeros 4 y ++ "-" ++ padZeros 2 m ++ "-" ++ padZeros 2 d

/-- `InvoiceExtractor.parse_date`: falsy input gives `None`; otherwise try
the (modelled) flexible parse, reformat to ISO on success, and return the
raw string on failure. -/
def parse_date (date_string : Option String) : Option String :=
  match date_string with
  | none => none
  | some s =>
    if s = "" then none
    else
      match dateutilParse s with
      | some (y, m, d) => some (isoDateStr y m d)
      | none => some s

/-!
  ## A backtracking regular-expression engine

`RE` and `reM` embed the fragment of Python's `re` module used by
`manual.py`: ordered alternation, greedy `*`/`+`/`?`, lazy `*?`/`+?`,
bounded repetition, character classes, capture groups, `^`/`$` (with and
without `re.MULTILINE`), `\b`, and the `re.IGNORECASE` flag.  The matcher
is continuation-passing with explicit fuel; fuel is sized generously so
that it never runs out on the searches the program performs.
-/

/-- Regular-expression syntax. -/
inductive RE where
  | eps : RE
  | cls (p : Char → Bool) : RE
  | seq (a b : RE) : RE
  | alt (a b : RE) : RE
  | star (r : RE) : RE
  | lazystar (r : RE) : RE
  | grp (i : Nat) (r : RE) : RE
  | bol : RE
  | eol : RE
  | wordb : RE

/-- Captured groups: group index paired with the captured characters
(the most recent capture of an index is listed first). -/
abbrev Caps := List (Nat × List Char)

/-- `re.IGNORECASE` class test: the character matches if it, its lowercase
or its uppercase form satisfies the class. -/
def clsOk (ic : Bool) (p : Char → Bool) (c : Char) : Bool :=
  p c || (ic && (p c.toLower || p c.toUpper))

/-- The regex word character `\w` (ASCII model). -/
def isWordChar (c : Char) : Bool := c.isAlphanum || c = '_'

/-- Structural size of a regex, used to size the matcher's fuel. -/
def reSize : RE → Nat
  | .eps => 1
  | .cls _ => 1
  | .seq a b => reSize a + reSize b + 1
  | .alt a b => reSize a + reSize b + 1
  | .star r => reSize r + 1
  | .lazystar r => reSize r + 1
  | .grp _ r => reSize r + 1
  | .bol => 1
  | .eol => 1
  | .wordb => 1

/-- The backtracking matcher.  `reM ic ml fuel r s prev caps k` tries to
match `r` at the start of `s` (with `prev` the character just before `s`,
for `^`/`\b`/`$`), exploring alternatives in Python's order: alternation
prefers its left branch, `star` prefers more repetitions, `lazystar`
prefers fewer.  On each way of matching it calls the continuation `k` with
the rest of the input, the new previous character, and the captures; the
first continuation call returning `some` wins. -/
def reM {α : Type} (ic ml : Bool) :
    Nat → RE → List Char → Option Char → Caps →
    (List Char → Option Char → Caps → Option α) → Option α
  | 0, _, _, _, _, _ => none
  | _ + 1, .eps, s, prev, caps, k => k s prev caps
  | _ + 1, .cls p, s, _, caps, k =>
    match s with
    | [] => none
    | c :: rest => if clsOk ic p c then k rest (some c) caps else none
  | fuel + 1, .seq a b, s, prev, caps, k =>
    reM ic ml fuel a s prev caps fun s1 p1 c1 => reM ic ml fuel b s1 p1 c1 k
  | fuel + 1, .alt a b, s, prev, caps, k =>
    match reM ic ml fuel a s prev caps k with
    | some r => some r
    | none => reM ic ml fuel b s prev caps k
  | fuel + 1, .star r, s, prev, caps, k =>
    match reM ic ml fuel r s prev caps (fun s1 p1 c1 =>
        if s1.length < s.length then reM ic ml fuel (.star r) s1 p1 c1 k
        else none) with
    | some res => some res
    | none => k s prev caps
  | fuel + 1, .lazystar r, s, prev, caps, k =>
    match k s prev caps with
    | some res => some res
    | none =>
      reM ic ml fuel r s prev caps fun s1 p1 c1 =>
        if s1.length < s.length then reM ic ml fuel (.lazystar r) s1 p1 c1 k
        else none
  | fuel + 1, .grp i r, s, prev, caps, k =>
    reM ic ml fuel r s prev caps fun s1 p1 c1 =>
      k s1 p1 ((i, s.take (s.length - s1.length)) :: c1)
  | _ + 1, .bol, s, prev, caps, k =>
    if prev.isNone || (ml && prev == some '\n') then k s prev caps else none
  | _ + 1, .eol, s, prev, caps, k =>
    match s with
    | [] => k s prev caps
    | c :: rest =>
      if c = '\n' && (ml || rest.isEmpty) then k s prev caps else none
  | _ + 1, .wordb, s, prev, caps, k =>
    let pw := match prev with | some c => isWordChar c | none => false
    let nw := match s with | c :: _ => isWordChar c | [] => false
    if pw != nw then k s prev caps else none

/-- Fuel that is always sufficient for matching `r` against `s`. -/
def reFuel (r : RE) (s : List Char) : Nat :=
  (reSize r + 2) * (s.length + 2) + 8

/-- One anchored match attempt (the whole match is recorded as group 0). -/
def reTryAt (ic ml : Bool) (r : RE) (s : List Char) (prev : Option Char) :
    Option (Caps × List Char × Option Char) :=
  reM ic ml (reFuel r s) (.grp 0 r) s prev [] fun s1 p1 c1 => some (c1, s1, p1)

/-- `re.search`: scan start positions left to right, returning the captures
of the leftmost match. -/
def reSearchFrom (ic ml : Bool) (r : RE) :
    Nat → List Char → Option Char → Option Caps
  | 0, _, _ => none
  | fuel + 1, s, prev =>
    match reTryAt ic ml r s prev with
    | some (caps, _, _) => some caps
    | none =>
      match s with
      | [] => none
      | c :: rest => reSearchFrom ic ml r fuel rest (some c)

/-- `re.search(r, s, flags)` on a character list. -/
def reSearch (ic ml : Bool) (r : RE) (s : List Char) : Option Caps :=
  reSearchFrom ic ml r (s.length + 1) s none

/-- `match.group(i)` of a search result. -/
def reSearchGrp (ic ml : Bool) (r : RE) (s : List Char) (i : Nat) :
    Option (List Char) :=
  (reSearch ic ml r s).bind (List.lookup i)

/-- `re.match(r, s, flags)`: anchored at the start of the string. -/
def reMatchStart (ic ml : Bool) (r : RE) (s : List Char) : Option Caps :=
  (reTryAt ic ml r s none).map (·.1)

/-- `re.findall(r, s)` for a pattern with one capture group: the list of
group-1 captures of all non-overlapping matches, scanning left to right
and continuing after each match (advancing one character after an empty
match). -/
def reFindAllFrom (ic : Bool) (r : RE) :
    Nat → List Char → Option Char → List (List Char)
  | 0, _, _ => []
  | fuel + 1, s, prev =>
    match reTryAt ic false r s prev with
    | some (caps, s1, p1) =>
      let g1 := (List.lookup 1 caps).getD []
      if s1.length = s.length then
        match s with
        | [] => [g1]
        | c :: rest => g1 :: reFindAllFrom ic r fuel rest (some c)
      else g1 :: reFindAllFrom ic r fuel s1 p1
    | none =>
      match s with
      | [] => []
      | c :: rest => reFindAllFrom ic r fuel rest (some c)

/-- `re.findall(r, s)` on a character list. -/
def reFindAll (ic : Bool) (r : RE) (s : List Char) : List (List Char) :=
  reFindAllFrom ic r (s.length + 1) s none

/-!
  ### Combinators mirroring the regex syntax of the source patterns
-/

/-- A literal character. -/
def rc (c : Char) : RE := .cls (fun d => d = c)

/-- A literal string of characters. -/
def rs (s : String) : RE := (s.data.map rc).foldr .seq .eps

/-- Sequence a list of regexes. -/
def seqL (rs : List RE) : RE := rs.foldr .seq .eps

/-- `r?` (greedy). -/
def ropt (r : RE) : RE := .alt r .eps

/-- `r+` (greedy). -/
def rplus (r : RE) : RE := .seq r (.star r)

/-- `r{n}`. -/
def repN : Nat → RE → RE
  | 0, _ => .eps
  | n + 1, r => .seq r (repN n r)

/-- `r{0,n}` (greedy: prefer more repetitions). -/
def rep0to : Nat → RE → RE
  | 0, _ => .eps
  | n + 1, r => ropt (.seq r (rep0to n r))

/-- `r{m,n}` (greedy). -/
def repRange (m n : Nat) (r : RE) : RE := .seq (repN m r) (rep0to (n - m) r)

/-- `\s`. -/
def rspace : RE := .cls pySpace

/-- `\d` (ASCII model). -/
def rdigit : RE := .cls Char.isDigit

/-- `.` (any character but newline). -/
def rdot : RE := .cls (fun c => c ≠ '\n')

/-- `[A-Za-z0-9\-_]`. -/
def clsIdChar : RE := .cls (fun c => c.isAlpha || c.isDigit || c = '-' || c = '_')

/-- `[A-Fa-f0-9]`. -/
def clsHex : RE :=
  .cls (fun c => c.isDigit || (97 ≤ c.toNat && c.toNat ≤ 102) ||
    (65 ≤ c.toNat && c.toNat ≤ 70))

/-- `[A-Za-z]`. -/
def clsAlpha : RE := .cls Char.isAlpha

/-- `[A-Za-z0-9]`. -/
def clsAlnum : RE := .cls Char.isAlphanum

/-- `[A-Za-z\s]`. -/
def clsAlphaSpace : RE := .cls (fun c => c.isAlpha || pySpace c)

/-- `[0-9,]`. -/
def clsDigitComma : RE := .cls (fun c => c.isDigit || c = ',')

/-- `[\/\-\.]`. -/
def clsDateSep : RE := .cls (fun c => c = '/' || c = '-' || c = '.')

/-- `[-.\s]`. -/
def clsPhoneSep : RE := .cls (fun c => c = '-' || c = '.' || pySpace c)

/-!
  ## The pattern tables of `InvoiceExtractor.__init__` (`self.patterns`)

Each definition carries the source regex it transcribes.
-/

/-- `\s*` -/
def sOpt : RE := .star rspace

/-- `:?` -/
def colonOpt : RE := ropt (rc ':')

/-- `#?` -/
def hashOpt : RE := ropt (rc '#')

/-- `([0-9,]+\.?[0-9]*)` -/
def amtGrp : RE := .grp 1 (seqL [rplus clsDigitComma, ropt (rc '.'), .star rdigit])

/-- `([A-Za-z]{3,9}\s+[0-9]{1,2},?\s+[0-9]{4})` -/
def monthDateGrp : RE :=
  .grp 1 (seqL [repRange 3 9 clsAlpha, rplus rspace, repRange 1 2 rdigit,
    ropt (rc ','), rplus rspace, repN 4 rdigit])

/-- `([0-9]{1,2}[\/\-\.][0-9]{1,2}[\/\-\.][0-9]{2,4})` -/
def numDateGrp : RE :=
  .grp 1 (seqL [repRange 1 2 rdigit, clsDateSep, repRange 1 2 rdigit,
    clsDateSep, repRange 2 4 rdigit])

/-- `([A-Za-z0-9\-_]+)` -/
def idGrp : RE := .grp 1 (rplus clsIdChar)

/-- `([A-Fa-f0-9]{8}[0-9]{4})` -/
def hexIdGrp : RE := .grp 1 (seqL [repN 8 clsHex, repN 4 rdigit])

/-- The `invoice_number` pattern list. -/
def invoiceNumberPats : List RE :=
  [ -- invoice\s*number\s*:?\s*([A-Fa-f0-9]{8}[0-9]{4})
    seqL [rs "invoice", sOpt, rs "number", sOpt, colonOpt, sOpt, hexIdGrp],
    -- invoice\s*number\s*:?\s*([A-Za-z0-9\-_]+)
    seqL [rs "invoice", sOpt, rs "number", sOpt, colonOpt, sOpt, idGrp],
    -- invoice\s*#?\s*:?\s*([A-Za-z0-9\-_]+)
    seqL [rs "invoice", sOpt, hashOpt, sOpt, colonOpt, sOpt, idGrp],
    -- inv\s*#?\s*:?\s*([A-Za-z0-9\-_]+)
    seqL [rs "inv", sOpt, hashOpt, sOpt, colonOpt, sOpt, idGrp],
    -- #\s*([A-Za-z0-9\-_]+)
    seqL [rc '#', sOpt, idGrp],
    -- doc\s*#?\s*:?\s*([A-Za-z0-9\-_]+)
    seqL [rs "doc", sOpt, hashOpt, sOpt, colonOpt, sOpt, idGrp],
    -- reference\s*#?\s*:?\s*([A-Za-z0-9\-_]+)
    seqL [rs "reference", sOpt, hashOpt, sOpt, colonOpt, sOpt, idGrp],
    -- ([A-Fa-f0-9]{8}[0-9]{4})
    hexIdGrp,
    -- ([A-Za-z0-9]{4}-[A-Za-z0-9]{8}-[A-Za-z0-9]{4})
    .grp 1 (seqL [repN 4 clsAlnum, rc '-', repN 8 clsAlnum, rc '-', repN 4 clsAlnum]) ]

/-- The `date` pattern list. -/
def datePats : List RE :=
  [ -- date\s*of\s*issue\s*:?\s*([A-Za-z]{3,9}\s+[0-9]{1,2},?\s+[0-9]{4})
    seqL [rs "date", sOpt, rs "of", sOpt, rs "issue", sOpt, colonOpt, sOpt, monthDateGrp],
    -- invoice\s*date\s*:?\s*([A-Za-z]{3,9}\s+[0-9]{1,2},?\s+[0-9]{4})
    seqL [rs "invoice", sOpt, rs "date", sOpt, colonOpt, sOpt, monthDateGrp],
    -- date\s*:?\s*([0-9]{1,2}[\/\-\.][0-9]{1,2}[\/\-\.][0-9]{2,4})
    seqL [rs "date", sOpt, colonOpt, sOpt, numDateGrp],
    -- ([A-Za-z]{3,9}\s+[0-9]{1,2},?\s+[0-9]{4})
    monthDateGrp,
    -- ([0-9]{4}-[0-9]{2}-[0-9]{2})
    .grp 1 (seqL [repN 4 rdigit, rc '-', repN 2 rdigit, rc '-', repN 2 rdigit]),
    -- ([0-9]{2}\/[0-9]{2}\/[0-9]{4})
    .grp 1 (seqL [repN 2 rdigit, rc '/', repN 2 rdigit, rc '/', repN 4 rdigit]),
    -- ([0-9]{1,2}[\/\-\.][0-9]{1,2}[\/\-\.][0-9]{2,4})
    numDateGrp ]

/-- The `due_date` pattern list. -/
def dueDatePats : List RE :=
  [ -- date\s*due\s*:?\s*([A-Za-z]{3,9}\s+[0-9]{1,2},?\s+[0-9]{4})
    seqL [rs "date", sOpt, rs "due", sOpt, colonOpt, sOpt, monthDateGrp],
    -- due\s*date\s*:?\s*([A-Za-z]{3,9}\s+[0-9]{1,2},?\s+[0-9]{4})
    seqL [rs "due", sOpt, rs "date", sOpt, colonOpt, sOpt, monthDateGrp],
    -- due\s*:?\s*([A-Za-z]{3,9}\s+[0-9]{1,2},?\s+[0-9]{4})
    seqL [rs "due", sOpt, colonOpt, sOpt, monthDateGrp],
    -- due\s*date\s*:?\s*([0-9]{1,2}[\/\-\.][0-9]{1,2}[\/\-\.][0-9]{2,4})
    seqL [rs "due", sOpt, rs "date", sOpt, colonOpt, sOpt, numDateGrp],
    -- payment\s*due\s*:?\s*([0-9]{1,2}[\/\-\.][0-9]{1,2}[\/\-\.][0-9]{2,4})
    seqL [rs "payment", sOpt, rs "due", sOpt, colonOpt, sOpt, numDateGrp],
    -- due\s*:?\s*([0-9]{1,2}[\/\-\.][0-9]{1,2}[\/\-\.][0-9]{2,4})
    seqL [rs "due", sOpt, colonOpt, sOpt, numDateGrp] ]

/-- The `total` pattern list. -/
def totalPats : List RE :=
  [ -- total\s*:?\s*us\$\s*([0-9,]+\.?[0-9]*)
    seqL [rs "total", sOpt, colonOpt, sOpt, rs "us", rc '$', sOpt, amtGrp],
    -- total\s*:?\s*\$\s*([0-9,]+\.?[0-9]*)
    seqL [rs "total", sOpt, colonOpt, sOpt, rc '$', sOpt, amtGrp],
    -- total\s*:?\s*([0-9,]+\.?[0-9]*)
    seqL [rs "total", sOpt, colonOpt, sOpt, amtGrp],
    -- amount\s*due\s*:?\s*us\$\s*([0-9,]+\.?[0-9]*)
    seqL [rs "amount", sOpt, rs "due", sOpt, colonOpt, sOpt, rs "us", rc '$', sOpt, amtGrp],
    -- amount\s*due\s*:?\s*\$\s*([0-9,]+\.?[0-9]*)
    seqL [rs "amount", sOpt, rs "due", sOpt, colonOpt, sOpt, rc '$', sOpt, amtGrp],
    -- balance\s*due\s*:?\s*\$?\s*([0-9,]+\.?[0-9]*)
    seqL [rs "balance", sOpt, rs "due", sOpt, colonOpt, sOpt, ropt (rc '$'), sOpt, amtGrp],
    -- grand\s*total\s*:?\s*\$?\s*([0-9,]+\.?[0-9]*)
    seqL [rs "grand", sOpt, rs "total", sOpt, colonOpt, sOpt, ropt (rc '$'), sOpt, amtGrp],
    -- total\s*amount\s*:?\s*\$?\s*([0-9,]+\.?[0-9]*)
    seqL [rs "total", sOpt, rs "amount", sOpt, colonOpt, sOpt, ropt (rc '$'), sOpt, amtGrp],
    -- net\s*amount\s*:?\s*\$?\s*([0-9,]+\.?[0-9]*)
    seqL [rs "net", sOpt, rs "amount", sOpt, colonOpt, sOpt, ropt (rc '$'), sOpt, amtGrp] ]

/-- The `subtotal` pattern list. -/
def subtotalPats : List RE :=
  [ -- subtotal\s*:?\s*us\$\s*([0-9,]+\.?[0-9]*)
    seqL [rs "subtotal", sOpt, colonOpt, sOpt, rs "us", rc '$', sOpt, amtGrp],
    -- subtotal\s*:?\s*\$\s*([0-9,]+\.?[0-9]*)
    seqL [rs "subtotal", sOpt, colonOpt, sOpt, rc '$', sOpt, amtGrp],
    -- sub\s*total\s*:?\s*us\$\s*([0-9,]+\.?[0-9]*)
    seqL [rs "sub", sOpt, rs "total", sOpt, colonOpt, sOpt, rs "us", rc '$', sOpt, amtGrp],
    -- sub\s*total\s*:?\s*\$\s*([0-9,]+\.?[0-9]*)
    seqL [rs "sub", sOpt, rs "total", sOpt, colonOpt, sOpt, rc '$', sOpt, amtGrp],
    -- sub-total\s*:?\s*\$?\s*([0-9,]+\.?[0-9]*)
    seqL [rs "sub-total", sOpt, colonOpt, sOpt, ropt (rc '$'), sOpt, amtGrp] ]

/-- The `tax` pattern list. -/
def taxPats : List RE :=
  [ -- tax\s*:?\s*us\$\s*([0-9,]+\.?[0-9]*)
    seqL [rs "tax", sOpt, colonOpt, sOpt, rs "us", rc '$', sOpt, amtGrp],
    -- tax\s*:?\s*\$\s*([0-9,]+\.?[0-9]*)
    seqL [rs "tax", sOpt, colonOpt, sOpt, rc '$', sOpt, amtGrp],
    -- sales\s*tax\s*:?\s*\$?\s*([0-9,]+\.?[0-9]*)
    seqL [rs "sales", sOpt, rs "tax", sOpt, colonOpt, sOpt, ropt (rc '$'), sOpt, amtGrp],
    -- vat\s*:?\s*\$?\s*([0-9,]+\.?[0-9]*)
    seqL [rs "vat", sOpt, colonOpt, sOpt, ropt (rc '$'), sOpt, amtGrp],
    -- gst\s*:?\s*\$?\s*([0-9,]+\.?[0-9]*)
    seqL [rs "gst", sOpt, colonOpt, sOpt, ropt (rc '$'), sOpt, amtGrp],
    -- hst\s*:?\s*\$?\s*([0-9,]+\.?[0-9]*)
    seqL [rs "hst", sOpt, colonOpt, sOpt, ropt (rc '$'), sOpt, amtGrp] ]

/-- `self.patterns`: the field-to-pattern-list dictionary.  `vendor_name`
and `customer_name` deliberately carry empty lists in the source. -/
def patternTable : List (String × List RE) :=
  [("invoice_number", invoiceNumberPats), ("date", datePats),
   ("due_date", dueDatePats), ("total", totalPats), ("subtotal", subtotalPats),
   ("tax", taxPats), ("vendor_name", []), ("customer_name", [])]

/-- The pattern loop of `extract_using_patterns`: try each pattern with a
case-insensitive multi-line `re.search` over the (already lowercased)
text; on the first pattern whose group 1 matches, return the captured
substring stripped of whitespace.  A pattern that matches without a usable
group 1 is skipped, mirroring the source's per-pattern `except` clause. -/
def tryPatterns : List RE → List Char → Option String
  | [], _ => none
  | r :: rest, cs =>
    match reSearchGrp true true r cs 1 with
    | some m => some (pyStrip ⟨m⟩)
    | none => tryPatterns rest cs

/-- `InvoiceExtractor._extract_invoice_number_alternative`: six patterns
tried in order with a case-insensitive `re.search` over the original text;
the first group-1 match is returned unstripped. -/
def invoiceNumberAltPats : List RE :=
  [ -- invoice\s*number\s*([A-Fa-f0-9]{8}[0-9]{4})
    seqL [rs "invoice", sOpt, rs "number", sOpt, hexIdGrp],
    -- ([A-Fa-f0-9]{8}[0-9]{4})
    hexIdGrp,
    -- ([A-Za-z0-9]+-[A-Fa-f0-9]{8}-[0-9]{4})
    .grp 1 (seqL [rplus clsAlnum, rc '-', repN 8 clsHex, rc '-', repN 4 rdigit]),
    -- ([A-Fa-f0-9]{8}-[0-9]{4})
    .grp 1 (seqL [repN 8 clsHex, rc '-', repN 4 rdigit]),
    -- (INV[A-Za-z0-9\-_]+)
    .grp 1 (seqL [rs "INV", rplus clsIdChar]),
    -- ([0-9]{4,})
    .grp 1 (seqL [repN 4 rdigit, .star rdigit]) ]

/-- The loop of `_extract_invoice_number_alternative`. -/
def invoiceNumberAltLoop : List RE → List Char → Option String
  | [], _ => none
  | r :: rest, cs =>
    match reSearchGrp true false r cs 1 with
    | some m => some ⟨m⟩
    | none => invoiceNumberAltLoop rest cs

/-- `_extract_invoice_number_alternative` on the original text. -/
def invoiceNumberAlternative (text : String) : Option String :=
  invoiceNumberAltLoop invoiceNumberAltPats text.data

/-- `\$\s*([0-9,]+\.?[0-9]*)` -/
def totAltPat1 : RE := seqL [rc '$', sOpt, amtGrp]

/-- `([0-9,]+\.?[0-9]*)\s*\$` -/
def totAltPat2 : RE := seqL [amtGrp, sOpt, rc '$']

/-- `([0-9,]+\.[0-9]{2})` -/
def totAltPat3 : RE := .grp 1 (seqL [rplus clsDigitComma, rc '.', repN 2 rdigit])

/-- The amounts collected by `_extract_total_alternative`: every group-1
capture of the three patterns (in pattern order, `re.findall` each),
cleaned to digits and dots, parsed as a float, keeping only the strictly
positive values. -/
def totalAltAmounts (text : String) : List PyFloat :=
  (reFindAll false totAltPat1 text.data ++ reFindAll false totAltPat2 text.data ++
      reFindAll false totAltPat3 text.data).filterMap fun m =>
    match pyFloatOfClean (cleanAmount m) with
    | some f => if 0 < f.mant then some f else none
    | none => none

/-- Python's `max` over a nonempty list: keep the current maximum,
replacing it only on a strictly larger element. -/
def pyMaxFloat (h : PyFloat) (t : List PyFloat) : PyFloat :=
  t.foldl (fun c x => if pfLt c x then x else c) h

/-- `InvoiceExtractor._extract_total_alternative`: the largest collected
amount rendered back through `str(...)`, or `None` when nothing parsed. -/
def totalAlternative (text : String) : Option String :=
  match totalAltAmounts text with
  | [] => none
  | h :: t => some (pyFloatStr (pyMaxFloat h t))

/-- `^(.*?)\s+bill\s+to` -/
def vendorBillToPat : RE :=
  seqL [.bol, .grp 1 (.lazystar rdot), rplus rspace, rs "bill", rplus rspace, rs "to"]

/-- `^[A-Za-z\s]+$` -/
def alphaSpaceLinePat : RE := seqL [.bol, rplus clsAlphaSpace, .eol]

/-- `(khan academy)` -/
def khanAcademyPat : RE := .grp 1 (rs "khan academy")

/-- First loop of `_extract_vendor_name_alternative`: scan stripped lines;
a line containing both "khan academy" and "bill to" yields the part before
"bill to"; otherwise a letters-and-spaces-only line containing "khan" is
returned whole. -/
def vendorLoop1 : List String → Option String
  | [] => none
  | l :: rest =>
    let s := pyStrip l
    if s ≠ "" ∧ pyContains (pyLower s) "khan academy" ∧ pyContains (pyLower s) "bill to" then
      match reSearchGrp true false vendorBillToPat s.data 1 with
      | some m => some (pyStrip ⟨m⟩)
      | none => vendorLoop1 rest
    else if s ≠ "" ∧ (reMatchStart false false alphaSpaceLinePat s.data).isSome ∧
        pyContains (pyLower s) "khan" then
      some s
    else vendorLoop1 rest

/-- Fallback loop of `_extract_vendor_name_alternative`: any line containing
"khan academy" yields the title-cased matched substring. -/
def vendorLoop2 : List String → Option String
  | [] => none
  | l :: rest =>
    if pyContains (pyLower l) "khan academy" then
      match reSearchGrp true false khanAcademyPat l.data 1 with
      | some m => some (pyTitle ⟨m⟩)
      | none => vendorLoop2 rest
    else vendorLoop2 rest

/-- `InvoiceExtractor._extract_vendor_name_alternative`. -/
def vendorNameAlternative (text : String) : Option String :=
  let lines := pySplitLines text
  match vendorLoop1 lines with
  | some v => some v
  | none => vendorLoop2 lines

/-- The address/contact noise keywords skipped by the customer-name scan. -/
def custNoiseKeywords : List String :=
  ["po box", "mountain view", "california", "united states",
   "@", ".com", ".org", "honors college", "west lafayette", "indiana"]

/-- The line scan of `_extract_customer_name_alternative`: after a
"bill to" line, return the first non-noise line of letters and spaces with
at least two words. -/
def customerLoop : Bool → List String → Option String
  | _, [] => none
  | found, l :: rest =>
    let s := pyStrip l
    if pyContains (pyLower s) "bill to" then customerLoop true rest
    else if found ∧ s ≠ "" then
      if custNoiseKeywords.any (fun k => pyContains (pyLower s) k) then
        customerLoop found rest
      else if (reMatchStart false false alphaSpaceLinePat s.data).isSome ∧
          2 ≤ (pyWords s).length then
        some s
      else customerLoop found rest
    else customerLoop found rest

/-- `po\s+box\s+\d+\s+([A-Za-z\s]+?)(?:\s+\d+\s+[A-Za-z\s]+|$)` -/
def poBoxNamePat : RE :=
  seqL [rs "po", rplus rspace, rs "box", rplus rspace, rplus rdigit, rplus rspace,
    .grp 1 (.seq clsAlphaSpace (.lazystar clsAlphaSpace)),
    .alt (seqL [rplus rspace, rplus rdigit, rplus rspace, rplus clsAlphaSpace]) .eol]

/-- `InvoiceExtractor._extract_customer_name_alternative`. -/
def customerNameAlternative (text : String) : Option String :=
  match customerLoop false (pySplitLines text) with
  | some v => some v
  | none =>
    match reSearchGrp false true poBoxNamePat (pyLower text).data 1 with
    | some m =>
      let nm := pyStrip ⟨m⟩
      some (String.intercalate " " ((pyWords nm).map pyCapitalize))
    | none => none

/-- `InvoiceExtractor.extract_using_patterns`: lowercase the text, try the
field's declared patterns in order (first group-1 match, stripped, wins),
then fall back to the field-specific alternative extractors; fields without
patterns or fallbacks resolve to `None`. -/
def extract_using_patterns (text : String) (field : String) : Option String :=
  match patternTable.lookup field with
  | none => none
  | some pats =>
    match tryPatterns pats (pyLower text).data with
    | some v => some v
    | none =>
      if field = "invoice_number" then invoiceNumberAlternative text
      else if field = "total" then totalAlternative text
      else if field = "vendor_name" then vendorNameAlternative text
      else if field = "customer_name" then customerNameAlternative text
      else none

/-!
  ## Line items, vendor info, auxiliary data, and the assembled record
-/

/-- A JSON-like value of the output record. -/
inductive Val where
  | vNone : Val
  | vStr (s : String) : Val
  | vNum (f : PyFloat) : Val
  | vInt (n : Nat) : Val
  | vObj (fields : List (String × Val)) : Val
  | vArr (elems : List Val) : Val

/-- Python dict assignment `d[k] = v` on an insertion-ordered association
list: overwrite in place if the key exists, else append. -/
def dictSet : List (String × Val) → String → Val → List (String × Val)
  | [], k, v => [(k, v)]
  | (k', v') :: rest, k, v =>
    if k' = k then (k, v) :: rest else (k', v') :: dictSet rest k v

/-- Embed a `parse_amount` result as a record value. -/
def amtVal : Option (PyFloat ⊕ String) → Val
  | none => .vNone
  | some (.inl f) => .vNum f
  | some (.inr s) => .vStr s

/-- Embed an optional string as a record value. -/
def optStrVal : Option String → Val
  | none => .vNone
  | some s => .vStr s

/-- One extracted table: page, table number, and its rows as mappings from
column header to cell text (`df.to_dict('records')`). -/
structure PyTable where
  page : Nat
  tableNumber : Nat
  data : List (List (String × String))

/-- Column-header keywords for the line-item description field. -/
def descWords : List String := ["description", "item", "product", "service"]

/-- Column-header keywords for the quantity field. -/
def qtyWords : List String := ["qty", "quantity", "qnt"]

/-- Column-header keywords for the unit-price field. -/
def priceWords : List String := ["price", "rate", "unit"]

/-- Column-header keywords for the total-amount field. -/
def amountWords : List String := ["amount", "total", "sum"]

/-- The per-row column scan of `extract_line_items`: for each non-empty
header/cell pair, place the (stripped) cell under the line-item field whose
keyword list matches the lowercased header first. -/
def rowItem (record : List (String × String)) : List (String × Val) :=
  record.foldl
    (fun item kv =>
      if kv.1 = "" ∨ kv.2 = "" then item
      else
        let keyLower := pyLower kv.1
        let valueStr := pyStrip kv.2
        if descWords.any (fun w => pyContains keyLower w) then
          dictSet item "description" (.vStr valueStr)
        else if qtyWords.any (fun w => pyContains keyLower w) then
          dictSet item "quantity" (amtVal (parse_amount (some valueStr)))
        else if priceWords.any (fun w => pyContains keyLower w) then
          dictSet item "unit_price" (amtVal (parse_amount (some valueStr)))
        else if amountWords.any (fun w => pyContains keyLower w) then
          dictSet item "total_amount" (amtVal (parse_amount (some valueStr)))
        else item)
    []

/-- The primary (table) path of `extract_line_items`: a row contributes a
line item only if more than one field was populated. -/
def tableLineItems (tables : List PyTable) : List (List (String × Val)) :=
  tables.flatMap fun t =>
    t.data.filterMap fun record =>
      let item := rowItem record
      if 2 ≤ item.length then some item else none

/-- `^([A-Za-z\s]+)\s+(\d+)\s+(US\$[0-9,]+\.?[0-9]*)\s+(US\$[0-9,]+\.?[0-9]*)$` -/
def itemPat : RE :=
  seqL [.bol, .grp 1 (rplus clsAlphaSpace), rplus rspace, .grp 2 (rplus rdigit),
    rplus rspace,
    .grp 3 (seqL [rs "US", rc '$', rplus clsDigitComma, ropt (rc '.'), .star rdigit]),
    rplus rspace,
    .grp 4 (seqL [rs "US", rc '$', rplus clsDigitComma, ropt (rc '.'), .star rdigit]),
    .eol]

/-- `[–-]` (en dash or hyphen). -/
def clsEnDash : RE := .cls (fun c => c = '–' || c = '-')

/-- `([A-Za-z]{3}\s+\d{1,2},\s+\d{4})\s*[–-]\s*(\d{1,2}\s+[A-Za-z]{3}\s+\d{4})` -/
def rangePat : RE :=
  seqL [.grp 1 (seqL [repN 3 clsAlpha, rplus rspace, repRange 1 2 rdigit, rc ',',
      rplus rspace, repN 4 rdigit]), sOpt, clsEnDash, sOpt,
    .grp 2 (seqL [repRange 1 2 rdigit, rplus rspace, repN 3 clsAlpha, rplus rspace,
      repN 4 rdigit])]

/-- `InvoiceExtractor._extract_line_items_from_text`: scan stripped lines
with the item pattern; on a match build the four-field item and attach a
`service_period` when the next line carries the date-range pattern. -/
def textLineItems : List String → List (List (String × Val))
  | [] => []
  | l :: rest =>
    let s := pyStrip l
    match reMatchStart false false itemPat s.data with
    | some caps =>
      let description := pyStrip ⟨(caps.lookup 1).getD []⟩
      let quantity := natOfDigits ((caps.lookup 2).getD [])
      let base : List (String × Val) :=
        [("description", .vStr description), ("quantity", .vInt quantity),
         ("unit_price", amtVal (parse_amount (some ⟨(caps.lookup 3).getD []⟩))),
         ("total_amount", amtVal (parse_amount (some ⟨(caps.lookup 4).getD []⟩)))]
      let item := base ++
        (match rest with
         | nxt :: _ =>
           match reSearch false false rangePat (pyStrip nxt).data with
           | some caps2 =>
             [("service_period",
               Val.vStr ((⟨(caps2.lookup 1).getD []⟩ : String) ++ " - " ++
                 (⟨(caps2.lookup 2).getD []⟩ : String)))]
           | none => []
         | [] => [])
      item :: textLineItems rest
    | none => textLineItems rest

/-- `InvoiceExtractor.extract_line_items`: the table path, falling back to
the text scan only when the table path yields nothing and text is
available. -/
def extract_line_items (tables : List PyTable) (text : String) :
    List (List (String × Val)) :=
  let line_items := tableLineItems tables
  if line_items.isEmpty && text != "" then textLineItems (pySplitLines text)
  else line_items

/-- `[A-Za-z0-9._%+-]` -/
def clsEmailLocal : RE :=
  .cls (fun c => c.isAlphanum || c = '.' || c = '_' || c = '%' || c = '+' || c = '-')

/-- `[A-Za-z0-9.-]` -/
def clsEmailDom : RE := .cls (fun c => c.isAlphanum || c = '.' || c = '-')

/-- `[A-Z|a-z]` (the source class literally includes `|`). -/
def clsEmailTld : RE := .cls (fun c => c.isAlpha || c = '|')

/-- `\b[A-Za-z0-9._%+-]+@[A-Za-z0-9.-]+\.[A-Z|a-z]{2,}\b` -/
def emailPat : RE :=
  seqL [.wordb, rplus clsEmailLocal, rc '@', rplus clsEmailDom, rc '.',
    repN 2 clsEmailTld, .star clsEmailTld, .wordb]

/-- `(\(?\d{3}\)?[-.\s]?\d{3}[-.\s]?\d{4})` -/
def phonePat : RE :=
  .grp 1 (seqL [ropt (rc '('), repN 3 rdigit, ropt (rc ')'), ropt clsPhoneSep,
    repN 3 rdigit, ropt clsPhoneSep, repN 4 rdigit])

/-- `po\s+box\s+\d+|mountain\s+view|california` -/
def addrPat : RE :=
  .alt (seqL [rs "po", rplus rspace, rs "box", rplus rspace, rplus rdigit])
    (.alt (seqL [rs "mountain", rplus rspace, rs "view"]) (rs "california"))

/-- The whole-match email found in a (stripped) line, if any. -/
def emailOfLine (s : String) : Option String :=
  (reSearchGrp false false emailPat s.data 0).map fun m => (⟨m⟩ : String)

/-- The whole-match phone number found in a (stripped) line, if any. -/
def phoneOfLine (s : String) : Option String :=
  (reSearchGrp false false phonePat s.data 0).map fun m => (⟨m⟩ : String)

/-- Does the line carry one of the address markers (case-insensitive)? -/
def addrHit (s : String) : Bool := (reSearch true false addrPat s.data).isSome

/-- The email assignment of `extract_vendor_info`'s line scan: a
Khan-Academy address goes under `email`; any other address goes under
`vendor_or_customer_email` while no `email` key exists yet. -/
def emailStep (d : List (String × Val)) (s : String) : List (String × Val) :=
  match emailOfLine s with
  | some email =>
    if pyContains (pyLower email) "khanacademy.org" then
      dictSet d "email" (.vStr email)
    else if (d.lookup "email").isNone then
      dictSet d "vendor_or_customer_email" (.vStr email)
    else d
  | none => d

/-- The phone assignment of the line scan. -/
def phoneStep (d : List (String × Val)) (s : String) : List (String × Val) :=
  match phoneOfLine s with
  | some p => dictSet d "phone" (.vStr p)
  | none => d

/-- The address assignment of the line scan. -/
def addrStep (d : List (String × Val)) (s : String) : List (String × Val) :=
  if addrHit s then dictSet d "address" (.vStr s) else d

/-- One line of `extract_vendor_info`'s scan: email, then phone, then
address — each assignment overwriting any earlier value of its key. -/
def viStep (d : List (String × Val)) (line : String) : List (String × Val) :=
  let s := pyStrip line
  if s = "" then d
  else addrStep (phoneStep (emailStep d s) s) s

/-- `InvoiceExtractor.extract_vendor_info`: fold the scan over the first
15 lines of the text. -/
def extract_vendor_info (text : String) : List (String × Val) :=
  ((pySplitLines text).take 15).foldl viStep []

/-- `p\.?o\.?\s*#?\s*:?\s*([A-Za-z0-9\-_]+)` -/
def poPat1 : RE :=
  seqL [rc 'p', ropt (rc '.'), rc 'o', ropt (rc '.'), sOpt, hashOpt, sOpt,
    colonOpt, sOpt, idGrp]

/-- `purchase\s*order\s*#?\s*:?\s*([A-Za-z0-9\-_]+)` -/
def poPat2 : RE :=
  seqL [rs "purchase", sOpt, rs "order", sOpt, hashOpt, sOpt, colonOpt, sOpt, idGrp]

/-- `order\s*#?\s*:?\s*([A-Za-z0-9\-_]+)` -/
def poPat3 : RE := seqL [rs "order", sOpt, hashOpt, sOpt, colonOpt, sOpt, idGrp]

/-- The ordered PO-number pattern list. -/
def poPats : List RE := [poPat1, poPat2, poPat3]

/-- The PO-number loop of `extract_additional_data`: the first pattern
whose stripped group-1 capture is not literally `box` (case-insensitively)
wins; a `box` capture abandons that pattern and moves to the next. -/
def poLoop : List RE → List Char → Option String
  | [], _ => none
  | r :: rest, cs =>
    match reSearchGrp true false r cs 1 with
    | some m =>
      let po_value := pyStrip ⟨m⟩
      if pyLower po_value = "box" then poLoop rest cs else some po_value
    | none => poLoop rest cs

/-- `[A-Za-z0-9\s\-,]` -/
def clsTermChar : RE :=
  .cls (fun c => c.isAlphanum || pySpace c || c = '-' || c = ',')

/-- `terms?\s*:?\s*([A-Za-z0-9\s\-,]+)` -/
def termsPat1 : RE :=
  seqL [rs "term", ropt (rc 's'), sOpt, colonOpt, sOpt, .grp 1 (rplus clsTermChar)]

/-- `payment\s*terms?\s*:?\s*([A-Za-z0-9\s\-,]+)` -/
def termsPat2 : RE :=
  seqL [rs "payment", sOpt, rs "term", ropt (rc 's'), sOpt, colonOpt, sOpt,
    .grp 1 (rplus clsTermChar)]

/-- `net\s*(\d+)` -/
def termsPat3 : RE := seqL [rs "net", sOpt, .grp 1 (rplus rdigit)]

/-- The ordered payment-terms pattern list. -/
def termsPats : List RE := [termsPat1, termsPat2, termsPat3]

/-- The payment-terms loop: first stripped group-1 match wins. -/
def termsLoop : List RE → List Char → Option String
  | [], _ => none
  | r :: rest, cs =>
    match reSearchGrp true false r cs 1 with
    | some m => some (pyStrip ⟨m⟩)
    | none => termsLoop rest cs

/-- The ordered currency checks of `extract_additional_data`: each pattern
searched case-sensitively, paired with the currency it reports. -/
def currencyPats : List (RE × String) :=
  [(rc '$', "USD"), (rs "USD", "USD"), (rs "CAD", "CAD"), (rs "EUR", "EUR"),
   (rc '€', "EUR"), (rc '£', "GBP")]

/-- The currency loop: first pattern present anywhere in the text wins. -/
def currencyLoop : List (RE × String) → List Char → Option String
  | [], _ => none
  | (r, res) :: rest, cs =>
    if (reSearch false false r cs).isSome then some res else currencyLoop rest cs

/-- `InvoiceExtractor.extract_additional_data`: PO number, payment terms
and currency, each key present only when its scan found something. -/
def extract_additional_data (text : String) : List (String × Val) :=
  (match poLoop poPats text.data with
   | some v => [("po_number", Val.vStr v)]
   | none => []) ++
  (match termsLoop termsPats text.data with
   | some v => [("payment_terms", Val.vStr v)]
   | none => []) ++
  (match currencyLoop currencyPats text.data with
   | some v => [("currency", Val.vStr v)]
   | none => [])

/-- A raw table rendered into the output record. -/
def tableVal (t : PyTable) : Val :=
  .vObj [("page", .vInt t.page), ("table_number", .vInt t.tableNumber),
    ("data", .vArr (t.data.map fun r => .vObj (r.map fun kv => (kv.1, Val.vStr kv.2))))]

/-- `Path(pdf_path).name`: the final path component. -/
def filenameOf (path : String) : String := ((path.splitOn "/").getLast?).getD path

/-- `([A-Fa-f0-9]{8}-[0-9]{4})` -/
def fnInvPat : RE := .grp 1 (seqL [repN 8 clsHex, rc '-', repN 4 rdigit])

/-- The filename-derived invoice number of `extract_invoice_data`. -/
def filenameInvoiceNumber (path : String) : Option String :=
  (reSearchGrp false false fnInvPat (filenameOf path).data 1).map fun m => (⟨m⟩ : String)

/-- The fields of the output record inserted before the metadata stamp, in
the source's insertion order.  All keys are distinct, so the sequential
dict assignments and `invoice_data.update(...)` of the source are exactly
this concatenation. -/
def invoiceCore (text : String) (tables : List PyTable) (path : String) :
    List (String × Val) :=
  let patternInvoiceNumber := extract_using_patterns text "invoice_number"
  let filename_invoice_number := filenameInvoiceNumber path
  let invoice_number :=
    if ¬ pyTruthy patternInvoiceNumber ∧ pyTruthy filename_invoice_number then
      filename_invoice_number
    else patternInvoiceNumber
  let vendor_info := extract_vendor_info text
  let line_items := extract_line_items tables text
  [("invoice_number", optStrVal invoice_number),
   ("date", optStrVal (parse_date (extract_using_patterns text "date"))),
   ("due_date", optStrVal (parse_date (extract_using_patterns text "due_date"))),
   ("total", amtVal (parse_amount (extract_using_patterns text "total"))),
   ("subtotal", amtVal (parse_amount (extract_using_patterns text "subtotal"))),
   ("tax", amtVal (parse_amount (extract_using_patterns text "tax"))),
   ("vendor_name", optStrVal (extract_using_patterns text "vendor_name")),
   ("customer_name", optStrVal (extract_using_patterns text "customer_name"))] ++
  (if !vendor_info.isEmpty then [("vendor_info", Val.vObj vendor_info)] else []) ++
  (if !line_items.isEmpty then [("line_items", Val.vArr (line_items.map Val.vObj))] else []) ++
  extract_additional_data text

/-- The fields of the output record inserted after the metadata stamp:
debug payload and raw tables. -/
def invoiceTail (text : String) (tables : List PyTable) (path : String)
    (debug : Bool) : List (String × Val) :=
  (if debug then
    [("debug_info", Val.vObj
       [("extracted_text_length", .vInt text.length),
        ("tables_found", .vInt tables.length),
        ("filename_invoice_number", optStrVal (filenameInvoiceNumber path))]),
     ("raw_text", Val.vStr (if 1000 < text.length then (⟨text.data.take 1000⟩ : String) ++ "..." else text))]
   else []) ++
  (if !tables.isEmpty then [("raw_tables", Val.vArr (tables.map tableVal))] else [])

/-- `InvoiceExtractor.extract_invoice_data` as a function of the extracted
text and tables (the ingestion adapter is external), the source path, the
`datetime.now().isoformat()` stamp `now`, and the debug flag. -/
def extract_invoice_data (text : String) (tables : List PyTable)
    (path now : String) (debug : Bool) : List (String × Val) :=
  if text = "" then [("error", Val.vStr "No text could be extracted from PDF")]
  else
    invoiceCore text tables path ++
    [("extraction_date", Val.vStr now), ("source_file", Val.vStr path)] ++
    invoiceTail text tables path debug

/-!
  ## Theorems for the claims
-/

/-- C10: when the raw input to amount or date normalization is absent or
the empty string, the normalizer returns absent (`None`) rather than a
passthrough: `parse_amount("") = None`, `parse_date("") = None`, and
likewise for absent input. -/
theorem spec_C10 :
    parse_amount (some "") = none ∧ parse_amount none = none ∧
    parse_date (some "") = none ∧ parse_date none = none :=
  ⟨by decide, rfl, by decide, rfl⟩

/-- C2, counterexample: on the empty input string, `parse_amount` returns
`None`, not the raw string passed through, refuting the claim's "for every
input string ... on any parse failure returns the original raw string
unchanged". -/
theorem spec_C2_cex :
    parse_amount (some "") = none ∧
    parse_amount (some "") ≠ some (Sum.inr "") := by
  constructor
  · decide
  · decide

/-- C2, amended: for every NON-EMPTY input string, amount normalization
strips every character except digits and the decimal point, parses the
remainder as a floating-point number, and on parse failure returns the
original raw string unchanged — it never raises (empty or absent input
yields `None` instead, per C10); `normalize_amount("US$1,234.56") =
1234.56` and `normalize_amount("not a number") = "not a number"`. -/
theorem spec_C2 :
    (∀ s : String, s ≠ "" →
      (∀ f, pyFloatOfClean (cleanAmount s.data) = some f →
        parse_amount (some s) = some (Sum.inl f)) ∧
      (pyFloatOfClean (cleanAmount s.data) = none →
        parse_amount (some s) = some (Sum.inr s))) ∧
    parse_amount (some "US$1,234.56") = some (Sum.inl ⟨123456, 2⟩) ∧
    parse_amount (some "not a number") = some (Sum.inr "not a number") := by
  refine ⟨?_, by decide, by decide⟩
  intro s hs
  constructor
  · intro f hf
    simp [parse_amount, hs, hf]
  · intro hf
    simp [parse_amount, hs, hf]

/-- C2, witness: the amended theorem applied at the concrete input `"5"`. -/
theorem spec_C2_witness :
    parse_amount (some "5") = some (Sum.inl ⟨5, 0⟩) :=
  (spec_C2.1 "5" (by decide)).1 ⟨5, 0⟩ (by decide)

/-- C7, counterexample: on the empty input string, `parse_date` returns
`None`, not the raw string passed through, refuting the claim's "for every
input string ... on parse failure returns the raw string unchanged". -/
theorem spec_C7_cex :
    parse_date (some "") = none ∧
    parse_date (some "") ≠ some "" := by
  constructor
  · decide
  · decide

/-- C7, amended: for every NON-EMPTY input string, date normalization
attempts flexible natural-language date parsing, reformats a successfully
parsed date as ISO 8601 (`YYYY-MM-DD`), and on parse failure returns the
raw string unchanged (empty or absent input yields `None` instead, per
C10); `normalize_date("March 3, 2024") = "2024-03-03"` and
`normalize_date("garbage") = "garbage"`.  The flexible parser is the
external `dateutil` library, modelled here by `dateutilParse`. -/
theorem spec_C7 :
    (∀ s : String, s ≠ "" →
      (∀ y m d, dateutilParse s = some (y, m, d) →
        parse_date (some s) = some (isoDateStr y m d)) ∧
      (dateutilParse s = none → parse_date (some s) = some s)) ∧
    parse_date (some "March 3, 2024") = some "2024-03-03" ∧
    parse_date (some "garbage") = some "garbage" := by
  refine ⟨?_, by decide, by decide⟩
  intro s hs
  constructor
  · intro y m d hd
    simp [parse_date, hs, hd]
  · intro hd
    simp [parse_date, hs, hd]

/-- C7, witness: the amended theorem applied at the concrete input
`"nonsense"`. -/
theorem spec_C7_witness :
    parse_date (some "nonsense") = some "nonsense" :=
  (spec_C7.1 "nonsense" (by decide)).2 (by decide)

/-- C5, counterexample: on empty extracted text the result is the one-key
error record, but its message is `"No text could be extracted from PDF"`,
not the claimed `"no text could be extracted from the document"`. -/
theorem spec_C5_cex :
    extract_invoice_data "" [] "doc.pdf" "2024-01-01T00:00:00" false =
      [("error", Val.vStr "No text could be extracted from PDF")] ∧
    Val.vStr "No text could be extracted from PDF" ≠
      Val.vStr "no text could be extracted from the document" := by
  constructor
  · rfl
  · intro h
    injection h with h'
    exact absurd h' (by decide)

/-- C5, amended: whenever ingestion yields empty text, the extraction
result is exactly the one-key record
`{"error": "No text could be extracted from PDF"}` with no other keys,
regardless of tables, path, timestamp or debug flag. -/
theorem spec_C5 :
    ∀ (tables : List PyTable) (path now : String) (debug : Bool),
      extract_invoice_data "" tables path now debug =
        [("error", Val.vStr "No text could be extracted from PDF")] := by
  intro tables path now debug
  rfl

/-- C9: for a fixed extracted document (same text, tables, source path)
and the fixed pattern tables, two runs of the full extraction — differing
only in the `datetime.now()` stamp — produce identical output records
except for the `extraction_date` field; no other part of the result
depends on the timestamp. -/
theorem spec_C9 :
    ∀ (text : String) (tables : List PyTable) (path : String) (debug : Bool)
      (now₁ now₂ : String),
      (extract_invoice_data text tables path now₁ debug).filter
          (fun kv => kv.1 != "extraction_date") =
        (extract_invoice_data text tables path now₂ debug).filter
          (fun kv => kv.1 != "extraction_date") := by
  intro text tables path debug now₁ now₂
  unfold extract_invoice_data
  by_cases h : text = ""
  · simp [h]
  · simp only [if_neg h, List.filter_append]
    rfl

/-- C1: for every input text and every field with a non-empty declared
pattern list, the resolver lowercases the text and tries the field's
patterns in declared order with a case-insensitive multi-line search
(`tryPatterns ... (pyLower text).data`, by definition of
`extract_using_patterns`): the first pattern whose capture group matches
returns the whitespace-trimmed capture and short-circuits; a failing
pattern passes to the next; if no pattern matches and the field has no
fallback (`date`, `due_date`, `subtotal`, `tax`), the field is absent.
The final conjuncts exhibit the short-circuit concretely: the first date
pattern wins even though a later pattern would match a different value. -/
theorem spec_C1 :
    (∀ (cs : List Char) (r : RE) (rest : List RE) (m : List Char),
      reSearchGrp true true r cs 1 = some m →
        tryPatterns (r :: rest) cs = some (pyStrip ⟨m⟩)) ∧
    (∀ (cs : List Char) (r : RE) (rest : List RE),
      reSearchGrp true true r cs 1 = none →
        tryPatterns (r :: rest) cs = tryPatterns rest cs) ∧
    (∀ (text field : String) (pats : List RE),
      patternTable.lookup field = some pats →
      tryPatterns pats (pyLower text).data = none →
      (field = "date" ∨ field = "due_date" ∨ field = "subtotal" ∨ field = "tax") →
      extract_using_patterns text field = none) ∧
    (∀ (text field : String) (pats : List RE) (v : String),
      patternTable.lookup field = some pats →
      tryPatterns pats (pyLower text).data = some v →
      extract_using_patterns text field = some v) ∧
    extract_using_patterns "Date of issue: March 3, 2024\nDate: 12/31/2030" "date" =
      some "march 3, 2024" ∧
    tryPatterns (datePats.drop 2)
      (pyLower "Date of issue: March 3, 2024\nDate: 12/31/2030").data =
      some "12/31/2030" := by
  refine ⟨?_, ?_, ?_, ?_, by decide, by decide⟩
  · intro cs r rest m h
    simp [tryPatterns, h]
  · intro cs r rest h
    simp [tryPatterns, h]
  · intro text field pats hlook htry hfield
    unfold extract_using_patterns
    rw [hlook]
    simp only [htry]
    rcases hfield with rfl | rfl | rfl | rfl <;> rfl
  · intro text field pats v hlook htry
    unfold extract_using_patterns
    rw [hlook]
    simp only [htry]

/-- C1, witness: part 3 of the theorem applied at a concrete text and the
`subtotal` field, whose patterns all fail there. -/
theorem spec_C1_witness :
    extract_using_patterns "Foo Bar" "subtotal" = none :=
  spec_C1.2.2.1 "Foo Bar" "subtotal" subtotalPats rfl (by decide)
    (Or.inr (Or.inr (Or.inl rfl)))

/-- C4: the text-based line-item fallback runs only when the table path
yields zero line items and raw text is available (a non-empty table result
is returned untouched, and empty text never triggers the fallback); on
zero tables, the text `"Widgets 3 US$10.00 US$30.00"` followed by
`"Jan 1, 2024 – 2 Feb 2024"` produces exactly one line item with
description `"Widgets"`, quantity `3`, unit price `10.00`, total amount
`30.00` and service period `"Jan 1, 2024 - 2 Feb 2024"`. -/
theorem spec_C4 :
    (∀ (tables : List PyTable) (text : String),
      tableLineItems tables ≠ [] →
        extract_line_items tables text = tableLineItems tables) ∧
    (∀ tables : List PyTable,
      extract_line_items tables "" = tableLineItems tables) ∧
    extract_line_items [] "Widgets 3 US$10.00 US$30.00\nJan 1, 2024 – 2 Feb 2024" =
      [[("description", Val.vStr "Widgets"), ("quantity", Val.vInt 3),
        ("unit_price", Val.vNum ⟨10, 0⟩), ("total_amount", Val.vNum ⟨30, 0⟩),
        ("service_period", Val.vStr "Jan 1, 2024 - 2 Feb 2024")]] := by
  refine ⟨?_, ?_, by rfl⟩
  · intro tables text h
    unfold extract_line_items
    rw [if_neg]
    simp [List.isEmpty_iff, h]
  · intro tables
    unfold extract_line_items
    rw [if_neg]
    simp

/-- C4, witness: part 1 of the theorem applied at a concrete table whose
row populates two line-item fields. -/
theorem spec_C4_witness :
    extract_line_items [⟨1, 1, [[("Description", "Foo"), ("Qty", "2")]]⟩] "ignored" =
      tableLineItems [⟨1, 1, [[("Description", "Foo"), ("Qty", "2")]]⟩] :=
  spec_C4.1 _ "ignored" (by
    intro h
    have hlen : (tableLineItems [⟨1, 1, [[("Description", "Foo"), ("Qty", "2")]]⟩]).length = 1 := rfl
    rw [h] at hlen
    exact absurd hlen (by decide))

/-- The PO-number loop never returns a value whose lowercase form is
`"box"`: the guard in each iteration rejects exactly that value. -/
theorem poLoop_ne_box :
    ∀ (ps : List RE) (cs : List Char) (v : String),
      poLoop ps cs = some v → pyLower v ≠ "box" := by
  intro ps
  induction ps with
  | nil => intro cs v h; exact absurd h (by simp [poLoop])
  | cons r rest ih =>
    intro cs v h
    unfold poLoop at h
    rcases hm : reSearchGrp true false r cs 1 with _ | m <;> rw [hm] at h <;>
      dsimp only at h
    · exact ih cs v h
    · by_cases hb : pyLower (pyStrip ⟨m⟩) = "box"
      · rw [if_pos hb] at h
        exact ih cs v h
      · rw [if_neg hb] at h
        cases h
        exact hb

/-- C6: the PO-number scan never populates `po_number` with a value that
is literally `box` in any letter case; text containing `"PO Box 1630"` and
nothing else leaves `po_number` absent, while `"PO# 88231"` yields
`po_number = "88231"`. -/
theorem spec_C6 :
    (∀ (text v : String),
      (extract_additional_data text).lookup "po_number" = some (Val.vStr v) →
      pyLower v ≠ "box") ∧
    (extract_additional_data "PO Box 1630").lookup "po_number" = none ∧
    (extract_additional_data "PO# 88231").lookup "po_number" = some (Val.vStr "88231") := by
  refine ⟨?_, by rfl, by rfl⟩
  intro text v h
  unfold extract_additional_data at h
  rcases hpo : poLoop poPats text.data with _ | w <;> rw [hpo] at h
  · rcases htm : termsLoop termsPats text.data with _ | w₁ <;> rw [htm] at h <;>
      rcases hcu : currencyLoop currencyPats text.data with _ | w₂ <;> rw [hcu] at h <;>
      simp [List.lookup] at h
  · rcases htm : termsLoop termsPats text.data with _ | w₁ <;> rw [htm] at h <;>
      rcases hcu : currencyLoop currencyPats text.data with _ | w₂ <;> rw [hcu] at h <;>
      simp [List.lookup] at h <;>
      (subst h; exact poLoop_ne_box poPats text.data w hpo)

/-- C6, witness: part 1 of the theorem applied at the concrete text
`"PO# 88231"`, whose scan stores `"88231"`. -/
theorem spec_C6_witness : pyLower "88231" ≠ "box" :=
  spec_C6.1 "PO# 88231" "88231" (by rfl)

/-- The boolean float comparison agrees with the comparison of the exact
decimal values. -/
theorem pfLt_iff (a b : PyFloat) : pfLt a b = true ↔ pfVal a < pfVal b := by
  unfold pfLt pfVal
  rw [decide_eq_true_eq, div_lt_div_iff₀ (by positivity) (by positivity)]
  constructor <;> intro h <;> exact_mod_cast h

/-- Python's `max` returns an element of the list. -/
theorem pyMaxFloat_mem (h : PyFloat) (t : List PyFloat) :
    pyMaxFloat h t ∈ h :: t := by
  induction t generalizing h with
  | nil => simp [pyMaxFloat]
  | cons x t ih =>
    have step : pyMaxFloat h (x :: t) = pyMaxFloat (if pfLt h x then x else h) t := rfl
    rw [step]
    by_cases hc : pfLt h x = true
    · rw [if_pos hc]
      rcases List.mem_cons.mp (ih x) with hm | hm
      · rw [hm]
        exact List.mem_cons_of_mem _ (List.mem_cons_self _ _)
      · exact List.mem_cons_of_mem _ (List.mem_cons_of_mem _ hm)
    · rw [if_neg hc]
      rcases List.mem_cons.mp (ih h) with hm | hm
      · rw [hm]
        exact List.mem_cons_self _ _
      · exact List.mem_cons_of_mem _ (List.mem_cons_of_mem _ hm)

/-- Python's `max` dominates every element of the list. -/
theorem pyMaxFloat_ge (h : PyFloat) (t : List PyFloat) :
    ∀ x ∈ h :: t, pfVal x ≤ pfVal (pyMaxFloat h t) := by
  induction t generalizing h with
  | nil =>
    intro x hx
    rw [List.mem_singleton] at hx
    subst hx
    exact le_of_eq rfl
  | cons y t ih =>
    have step : pyMaxFloat h (y :: t) = pyMaxFloat (if pfLt h y then y else h) t := rfl
    have hh : pfVal h ≤ pfVal (if pfLt h y then y else h) := by
      by_cases hc : pfLt h y = true
      · rw [if_pos hc]
        exact le_of_lt ((pfLt_iff h y).1 hc)
      · rw [if_neg hc]
    have hy : pfVal y ≤ pfVal (if pfLt h y then y else h) := by
      by_cases hc : pfLt h y = true
      · rw [if_pos hc]
      · rw [if_neg hc]
        exact not_lt.1 fun hlt => hc ((pfLt_iff h y).2 hlt)
    have htop : pfVal (if pfLt h y then y else h) ≤ pfVal (pyMaxFloat (if pfLt h y then y else h) t) :=
      ih (if pfLt h y then y else h) _ (List.mem_cons_self _ _)
    intro x hx
    rw [step]
    rcases List.mem_cons.mp hx with hx | hx
    · subst hx
      exact le_trans hh htop
    · rcases List.mem_cons.mp hx with hx | hx
      · subst hx
        exact le_trans hy htop
      · exact ih (if pfLt h y then y else h) x (List.mem_cons_of_mem _ hx)

/-- Every collected fallback amount is strictly positive. -/
theorem totalAltAmounts_pos :
    ∀ (text : String) (f : PyFloat), f ∈ totalAltAmounts text → 0 < f.mant := by
  intro text f hf
  unfold totalAltAmounts at hf
  rw [List.mem_filterMap] at hf
  obtain ⟨m, _, hm⟩ := hf
  rcases hp : pyFloatOfClean (cleanAmount m) with _ | g <;> rw [hp] at hm <;>
    dsimp only at hm
  · exact absurd hm (by simp)
  · by_cases hpos : 0 < g.mant
    · rw [if_pos hpos] at hm
      cases hm
      exact hpos
    · rw [if_neg hpos] at hm
      exact absurd hm (by simp)

/-- C3: when no declared `total` pattern matches, the fallback collects
every currency-prefixed, currency-suffixed, and bare two-decimal numeric
token, parses each after stripping non-digit/non-dot characters, keeps
only strictly positive values (`totalAltAmounts`), and returns the maximum
of the collected values (absent when nothing parses); on text containing
only the amounts `$4.00`, `$40.00` and `$44.00` it returns `44.0`. -/
theorem spec_C3 :
    (∀ text : String, totalAltAmounts text = [] → totalAlternative text = none) ∧
    (∀ (text : String) (h : PyFloat) (t : List PyFloat),
      totalAltAmounts text = h :: t →
      ∃ m, m ∈ totalAltAmounts text ∧
        (∀ x ∈ totalAltAmounts text, pfVal x ≤ pfVal m) ∧
        0 < pfVal m ∧
        totalAlternative text = some (pyFloatStr m)) ∧
    (∀ (text : String) (x : PyFloat), x ∈ totalAltAmounts text → 0 < x.mant) ∧
    totalAlternative "$4.00 $40.00 $44.00" = some "44.0" := by
  refine ⟨?_, ?_, totalAltAmounts_pos, by decide⟩
  · intro text hempty
    unfold totalAlternative
    rw [hempty]
  · intro text h t hlist
    refine ⟨pyMaxFloat h t, ?_, ?_, ?_, ?_⟩
    · rw [hlist]
      exact pyMaxFloat_mem h t
    · intro x hx
      rw [hlist] at hx
      exact pyMaxFloat_ge h t x hx
    · have hmem : pyMaxFloat h t ∈ totalAltAmounts text := by
        rw [hlist]; exact pyMaxFloat_mem h t
      have hpos := totalAltAmounts_pos text _ hmem
      unfold pfVal
      positivity
    · unfold totalAlternative
      rw [hlist]

/-- C3, witness: the theorem applied at a text with no numeric tokens and
at the three-amount example. -/
theorem spec_C3_witness :
    totalAlternative "hello" = none ∧
    totalAlternative "$4.00 $40.00 $44.00" = some "44.0" :=
  ⟨spec_C3.1 "hello" (by decide), spec_C3.2.2.2⟩

/-- Looking up the key just set by `dictSet` yields the new value. -/
theorem lookup_dictSet_eq (d : List (String × Val)) (k : String) (v : Val) :
    (dictSet d k v).lookup k = some v := by
  induction d with
  | nil => simp [dictSet, List.lookup]
  | cons kv rest ih =>
    rcases kv with ⟨a, b⟩
    unfold dictSet
    by_cases hk : a = k
    · rw [if_pos hk]
      simp [List.lookup]
    · rw [if_neg hk]
      simp only [List.lookup, beq_eq_false_iff_ne.mpr (Ne.symm hk)]
      exact ih

/-- `dictSet` leaves every other key's lookup unchanged. -/
theorem lookup_dictSet_ne (d : List (String × Val)) (k j : String) (v : Val)
    (h : j ≠ k) : (dictSet d k v).lookup j = d.lookup j := by
  induction d with
  | nil => simp [dictSet, List.lookup, beq_eq_false_iff_ne.mpr h]
  | cons kv rest ih =>
    rcases kv with ⟨a, b⟩
    unfold dictSet
    by_cases hk : a = k
    · rw [if_pos hk]
      subst hk
      simp [List.lookup, beq_eq_false_iff_ne.mpr h]
    · rw [if_neg hk]
      simp only [List.lookup, ih]

/-- The Khan-Academy email found in a raw line the way the vendor-info
scan sees it: strip, skip empty lines, and keep only addresses containing
`khanacademy.org`. -/
def khanEmailOfLine (line : String) : Option String :=
  let s := pyStrip line
  if s = "" then none
  else
    match emailOfLine s with
    | some e => if pyContains (pyLower e) "khanacademy.org" then some e else none
    | none => none

/-- The phone number found in a raw line the way the vendor-info scan sees
it. -/
def phoneHitOfLine (line : String) : Option String :=
  let s := pyStrip line
  if s = "" then none else phoneOfLine s

/-- The address value a raw line contributes to the vendor-info scan: the
stripped line itself, when it carries an address marker. -/
def addrOfLine (line : String) : Option String :=
  let s := pyStrip line
  if s = "" then none else if addrHit s then some s else none

/-- The last hit of a per-line extractor over a list of lines. -/
def lastHit (f : String → Option String) : List String → Option String
  | [] => none
  | l :: ls =>
    match lastHit f ls with
    | some v => some v
    | none => f l

/-- The email step never touches keys other than `email` and
`vendor_or_customer_email`. -/
theorem emailStep_lookup_ne (d : List (String × Val)) (s : String) (k : String)
    (h1 : k ≠ "email") (h2 : k ≠ "vendor_or_customer_email") :
    (emailStep d s).lookup k = d.lookup k := by
  unfold emailStep
  rcases emailOfLine s with _ | e
  · rfl
  · dsimp only
    by_cases hk : pyContains (pyLower e) "khanacademy.org" = true
    · rw [if_pos hk, lookup_dictSet_ne _ _ _ _ h1]
    · rw [if_neg hk]
      by_cases hn : (d.lookup "email").isNone = true
      · rw [if_pos hn, lookup_dictSet_ne _ _ _ _ h2]
      · rw [if_neg hn]

/-- The email step's effect on the `email` key is exactly the line's
Khan-Academy email, if any. -/
theorem emailStep_lookup_email (d : List (String × Val)) (s : String) :
    (emailStep d s).lookup "email" =
      match (match emailOfLine s with
             | some e => if pyContains (pyLower e) "khanacademy.org" then some e else none
             | none => none) with
      | some v => some (Val.vStr v)
      | none => d.lookup "email" := by
  unfold emailStep
  rcases emailOfLine s with _ | e
  · rfl
  · dsimp only
    by_cases hk : pyContains (pyLower e) "khanacademy.org" = true
    · rw [if_pos hk]
      simp [lookup_dictSet_eq, hk]
    · rw [if_neg hk]
      simp only [hk, Bool.false_eq_true, if_false]
      by_cases hn : (d.lookup "email").isNone = true
      · rw [if_pos hn, lookup_dictSet_ne _ _ _ _ (by decide)]
      · rw [if_neg hn]

/-- The phone step's effect on the `phone` key. -/
theorem phoneStep_lookup_phone (d : List (String × Val)) (s : String) :
    (phoneStep d s).lookup "phone" =
      match phoneOfLine s with
      | some v => some (Val.vStr v)
      | none => d.lookup "phone" := by
  unfold phoneStep
  rcases phoneOfLine s with _ | p
  · rfl
  · exact lookup_dictSet_eq d "phone" (Val.vStr p)

/-- The phone step never touches other keys. -/
theorem phoneStep_lookup_ne (d : List (String × Val)) (s : String) (k : String)
    (h : k ≠ "phone") : (phoneStep d s).lookup k = d.lookup k := by
  unfold phoneStep
  rcases phoneOfLine s with _ | p
  · rfl
  · exact lookup_dictSet_ne d "phone" k (Val.vStr p) h

/-- The address step's effect on the `address` key. -/
theorem addrStep_lookup_addr (d : List (String × Val)) (s : String) :
    (addrStep d s).lookup "address" =
      if addrHit s then some (Val.vStr s) else d.lookup "address" := by
  unfold addrStep
  by_cases ha : addrHit s = true
  · rw [if_pos ha, if_pos ha]
    exact lookup_dictSet_eq d "address" (Val.vStr s)
  · rw [if_neg ha, if_neg ha]

/-- The address step never touches other keys. -/
theorem addrStep_lookup_ne (d : List (String × Val)) (s : String) (k : String)
    (h : k ≠ "address") : (addrStep d s).lookup k = d.lookup k := by
  unfold addrStep
  by_cases ha : addrHit s = true
  · rw [if_pos ha]
    exact lookup_dictSet_ne d "address" k (Val.vStr s) h
  · rw [if_neg ha]

/-- One scan step's effect on the `phone` key. -/
theorem viStep_lookup_phone (d : List (String × Val)) (l : String) :
    (viStep d l).lookup "phone" =
      match phoneHitOfLine l with
      | some v => some (Val.vStr v)
      | none => d.lookup "phone" := by
  unfold viStep phoneHitOfLine
  by_cases hs : pyStrip l = ""
  · simp [hs]
  · simp only [hs, if_neg hs, if_false]
    rw [addrStep_lookup_ne _ _ _ (by decide), phoneStep_lookup_phone]
    rcases phoneOfLine (pyStrip l) with _ | p
    · dsimp only
      rw [emailStep_lookup_ne _ _ _ (by decide) (by decide)]
    · rfl

/-- One scan step's effect on the `address` key. -/
theorem viStep_lookup_addr (d : List (String × Val)) (l : String) :
    (viStep d l).lookup "address" =
      match addrOfLine l with
      | some v => some (Val.vStr v)
      | none => d.lookup "address" := by
  unfold viStep addrOfLine
  by_cases hs : pyStrip l = ""
  · simp [hs]
  · simp only [hs, if_neg hs, if_false]
    rw [addrStep_lookup_addr]
    by_cases ha : addrHit (pyStrip l) = true
    · simp only [ha, if_true]
    · simp only [ha, Bool.false_eq_true, if_false]
      rw [phoneStep_lookup_ne _ _ _ (by decide),
        emailStep_lookup_ne _ _ _ (by decide) (by decide)]

/-- One scan step's effect on the `email` key. -/
theorem viStep_lookup_email (d : List (String × Val)) (l : String) :
    (viStep d l).lookup "email" =
      match khanEmailOfLine l with
      | some v => some (Val.vStr v)
      | none => d.lookup "email" := by
  unfold viStep khanEmailOfLine
  by_cases hs : pyStrip l = ""
  · simp [hs]
  · simp only [hs, if_neg hs, if_false]
    rw [addrStep_lookup_ne _ _ _ (by decide), phoneStep_lookup_ne _ _ _ (by decide),
      emailStep_lookup_email]

/-- Folding the scan over lines realizes the last hit of any per-line
extractor `f` that characterizes each step's effect on key `k`. -/
theorem lookup_foldl_viStep (k : String) (f : String → Option String)
    (hstep : ∀ (d : List (String × Val)) (l : String),
      (viStep d l).lookup k =
        match f l with
        | some v => some (Val.vStr v)
        | none => d.lookup k) :
    ∀ (lines : List String) (d : List (String × Val)),
      (lines.foldl viStep d).lookup k =
        match lastHit f lines with
        | some v => some (Val.vStr v)
        | none => d.lookup k := by
  intro lines
  induction lines with
  | nil => intro d; rfl
  | cons l ls ih =>
    intro d
    show ((ls.foldl viStep (viStep d l)).lookup k) = _
    rw [ih (viStep d l), hstep d l]
    show _ = (match (match lastHit f ls with
                     | some v => some v
                     | none => f l) with
              | some v => some (Val.vStr v)
              | none => d.lookup k)
    rcases lastHit f ls with _ | v
    · rfl
    · rfl

/-- C8, counterexample: with two phone lines in the header region, the
vendor-info scan stores the phone number of the SECOND line — the first
match in the category (`"650-555-1111"`) is replaced by a later one,
refuting "first match wins / a later match never replaces an earlier
one". -/
theorem spec_C8_cex :
    (extract_vendor_info "Phone: 650-555-1111\nPhone: 650-555-2222").lookup "phone" =
      some (Val.vStr "650-555-2222") ∧
    phoneHitOfLine "Phone: 650-555-1111" = some "650-555-1111" ∧
    ("650-555-2222" : String) ≠ "650-555-1111" := by
  refine ⟨rfl, rfl, by decide⟩

/-- C8, amended: for every input text, vendor-info extraction scans the
first 15 lines and fills each category with the LAST match for that
category (a later match in the same category replaces an earlier one);
only addresses containing `khanacademy.org` populate the `email`
category. -/
theorem spec_C8 :
    ∀ text : String,
      ((extract_vendor_info text).lookup "phone" =
        match lastHit phoneHitOfLine ((pySplitLines text).take 15) with
        | some v => some (Val.vStr v)
        | none => none) ∧
      ((extract_vendor_info text).lookup "address" =
        match lastHit addrOfLine ((pySplitLines text).take 15) with
        | some v => some (Val.vStr v)
        | none => none) ∧
      ((extract_vendor_info text).lookup "email" =
        match lastHit khanEmailOfLine ((pySplitLines text).take 15) with
        | some v => some (Val.vStr v)
        | none => none) := by
  intro text
  refine ⟨?_, ?_, ?_⟩
  · exact lookup_foldl_viStep "phone" phoneHitOfLine viStep_lookup_phone _ []
  · exact lookup_foldl_viStep "address" addrOfLine viStep_lookup_addr _ []
  · exact lookup_foldl_viStep "email" khanEmailOfLine viStep_lookup_email _ []
